import Mathlib

/-!
Verification of the bag validator and pipeline components of the
APTrust exchange repository, as a shallow embedding in Lean.

The embedding mirrors, definition by definition, the Go sources:

* `validation/validator.go` : the two-pass bag validator (pass 1 builds the
  side index and computes digests, pass 2 parses manifests and tag files);
* `network/s3_upload.go`    : the S3 upload client;
* the cold-tier (Glacier) restore-init stage, whose worker source is not in
  the repository snapshot; that part is modelled from the specification and
  is marked as such on each definition.

Bags are modelled as lists of entries (relative path, regular-file flag,
content).  Byte-level digests (md5, sha256) are implemented in full so that
checksum behaviour is decidable on concrete inputs.  Go `panic` (nil-pointer
dereference) is modelled with `Except`: a panicking run returns `.error`.
-/

namespace Exchange

/-! ## Basic character and string helpers

These mirror the exact character classes used by the Go source:
`regexp` class `\s` is `[\t\n\f\r ]`, `strings.TrimSpace` trims Unicode
whitespace (for ASCII input: space, tab, newline, vertical tab, form feed,
carriage return), and `strings.Trim(s, " ")` trims only the space character.
-/

/-- The character class `\s` of Go regular expressions: `[\t\n\f\r ]`. -/
def goSpace (c : Char) : Bool :=
  c = ' ' || c = '\t' || c = '\n' || c = '\x0c' || c = '\x0d'

/-- ASCII fragment of `unicode.IsSpace`, used by `strings.TrimSpace`. -/
def uniSpace (c : Char) : Bool :=
  c = ' ' || c = '\t' || c = '\n' || c = '\x0b' || c = '\x0c' || c = '\x0d'

/-- `strings.TrimSpace` on a list of characters. -/
def trimSpaceC (l : List Char) : List Char :=
  ((l.dropWhile uniSpace).reverse.dropWhile uniSpace).reverse

/-- `strings.Trim(s, cutset)` for a single cutset character. -/
def trimCharC (cut : Char) (l : List Char) : List Char :=
  ((l.dropWhile (· = cut)).reverse.dropWhile (· = cut)).reverse

/-- Substring test, as `strings.Contains`. -/
def containsSub (hay needle : List Char) : Bool :=
  match hay with
  | [] => needle.isEmpty
  | _ :: rest => needle.isPrefixOf hay || containsSub rest needle

/-- `strings.Contains` on strings. -/
def strContains (hay needle : String) : Bool :=
  containsSub hay.data needle.data

/-- `strings.HasSuffix` on strings. -/
def strEndsWith (s suf : String) : Bool :=
  suf.data.reverse.isPrefixOf s.data.reverse

/-- Split a character list at every newline character.  An empty input
gives one empty segment; `splitLinesC` below adjusts to the semantics of
`bufio.ScanLines`. -/
def splitOnNL : List Char → List (List Char)
  | [] => [[]]
  | '\n' :: rest => [] :: splitOnNL rest
  | c :: rest =>
    match splitOnNL rest with
    | [] => [[c]]
    | l :: ls => (c :: l) :: ls

/-- Drop a single trailing carriage return, as `bufio.ScanLines` does. -/
def dropCR (l : List Char) : List Char :=
  match l.reverse with
  | '\x0d' :: rest => rest.reverse
  | _ => l

/-- The sequence of lines produced by a `bufio.Scanner` with the default
`ScanLines` split function: one line per newline, plus a final unterminated
line when the input does not end in a newline; empty input yields no lines. -/
def splitLinesC (content : List Char) : List (List Char) :=
  let parts := splitOnNL content
  let parts := if parts.getLast? = some [] then parts.dropLast else parts
  parts.map dropCR

/-- `strings.Replace(s, ":", "", 1)`: remove the first colon, if any. -/
def removeFirstColon : List Char → List Char
  | [] => []
  | c :: rest => if c = ':' then rest else c :: removeFirstColon rest

/-- ASCII `strings.ToLower`. -/
def lowerStr (s : String) : String :=
  ⟨s.data.map Char.toLower⟩

/-- The bytes of an ASCII string (all concrete inputs in this file are
ASCII, where UTF-8 bytes coincide with code points). -/
def strBytes (s : String) : List Nat :=
  s.data.map Char.toNat

/-! ## Association-list side index

`util/storage` wraps a BoltDB file: a single-writer key-value store with
`save` (insert or replace) and `get`.  The validator stores the
IntellectualObject under the object identifier and each GenericFile under
its file identifier. -/

/-- Insert-or-replace for a key-value list (BoltDB `save`). -/
def saveAssoc {α : Type} (db : List (String × α)) (key : String) (v : α) :
    List (String × α) :=
  match db with
  | [] => [(key, v)]
  | (k, w) :: rest =>
    if k = key then (key, v) :: rest else (k, w) :: saveAssoc rest key v

/-- Lookup for a key-value list (BoltDB `get`; `none` means absent). -/
def lookupAssoc {α : Type} (db : List (String × α)) (key : String) : Option α :=
  match db with
  | [] => none
  | (k, w) :: rest => if k = key then some w else lookupAssoc rest key

/-! ## 32-bit arithmetic for the digest engine -/

/-- Truncate to 32 bits. -/
def w32 (n : Nat) : Nat := n % 4294967296

/-- 32-bit addition. -/
def add32 (a b : Nat) : Nat := (a + b) % 4294967296

/-- 32-bit complement. -/
def not32 (a : Nat) : Nat := 4294967295 - a % 4294967296

/-- 32-bit left rotation. -/
def rotl32 (x s : Nat) : Nat :=
  Nat.lor (w32 (Nat.shiftLeft (x % 4294967296) s))
    (Nat.shiftRight (x % 4294967296) (32 - s))

/-- 32-bit right rotation. -/
def rotr32 (x s : Nat) : Nat := rotl32 x (32 - s)

/-- Split a byte list into 64-byte blocks (fuel-based so that it reduces
in the kernel; the fuel `l.length` always suffices). -/
def chunks64Aux : Nat → List Nat → List (List Nat)
  | 0, _ => []
  | _, [] => []
  | fuel + 1, l => l.take 64 :: chunks64Aux fuel (l.drop 64)

/-- Split a byte list into 64-byte blocks. -/
def chunks64 (l : List Nat) : List (List Nat) := chunks64Aux l.length l

/-- Little-endian bytes of a value, `n` bytes long. -/
def leBytes : Nat → Nat → List Nat
  | 0, _ => []
  | k + 1, v => v % 256 :: leBytes k (v / 256)

/-- Big-endian bytes of a value, `n` bytes long. -/
def beBytes (k v : Nat) : List Nat := (leBytes k v).reverse

/-- Load a 32-bit little-endian word from four bytes. -/
def leWord (b : List Nat) : Nat :=
  b.getD 0 0 + 256 * b.getD 1 0 + 65536 * b.getD 2 0 + 16777216 * b.getD 3 0

/-- Load a 32-bit big-endian word from four bytes. -/
def beWord (b : List Nat) : Nat :=
  b.getD 3 0 + 256 * b.getD 2 0 + 65536 * b.getD 1 0 + 16777216 * b.getD 0 0

/-- The 16 32-bit words of one 64-byte block, with the given word loader. -/
def blockWords (load : List Nat → Nat) (block : List Nat) : List Nat :=
  (List.range 16).map (fun i => load ((block.drop (4 * i)).take 4))

/-- Lowercase hex digit: 0-9 then a-f. -/
def hexDigit (n : Nat) : Char :=
  if n < 10 then Char.ofNat (48 + n) else Char.ofNat (87 + n)

/-- Lowercase hex of one byte. -/
def hexByte (b : Nat) : List Char := [hexDigit (b / 16), hexDigit (b % 16)]

/-- Lowercase hex string of a byte list, as `fmt.Sprintf("%x", ...)`. -/
def hexOfBytes (bs : List Nat) : String := ⟨(bs.map hexByte).flatten⟩

/-! ## MD5 (RFC 1321), as used by Go `crypto/md5` -/

/-- The 64 MD5 sine-derived constants (decimal). -/
def md5K : List Nat :=
  [3614090360, 3905402710, 606105819, 3250441966, 4118548399, 1200080426,
   2821735955, 4249261313, 1770035416, 2336552879, 4294925233, 2304563134,
   1804603682, 4254626195, 2792965006, 1236535329, 4129170786, 3225465664,
   643717713, 3921069994, 3593408605, 38016083, 3634488961, 3889429448,
   568446438, 3275163606, 4107603335, 1163531501, 2850285829, 4243563512,
   1735328473, 2368359562, 4294588738, 2272392833, 1839030562, 4259657740,
   2763975236, 1272893353, 4139469664, 3200236656, 681279174, 3936430074,
   3572445317, 76029189, 3654602809, 3873151461, 530742520, 3299628645,
   4096336452, 1126891415, 2878612391, 4237533241, 1700485571, 2399980690,
   4293915773, 2240044497, 1873313359, 4264355552, 2734768916, 1309151649,
   4149444226, 3174756917, 718787259, 3951481745]

/-- The 64 MD5 per-round left-rotation amounts. -/
def md5S : List Nat :=
  [7, 12, 17, 22, 7, 12, 17, 22, 7, 12, 17, 22, 7, 12, 17, 22,
   5, 9, 14, 20, 5, 9, 14, 20, 5, 9, 14, 20, 5, 9, 14, 20,
   4, 11, 16, 23, 4, 11, 16, 23, 4, 11, 16, 23, 4, 11, 16, 23,
   6, 10, 15, 21, 6, 10, 15, 21, 6, 10, 15, 21, 6, 10, 15, 21]

/-- One MD5 round. -/
def md5Round (m : List Nat) (st : Nat × Nat × Nat × Nat) (i : Nat) :
    Nat × Nat × Nat × Nat :=
  let (a, b, c, d) := st
  let f :=
    if i < 16 then Nat.lor (Nat.land b c) (Nat.land (not32 b) d)
    else if i < 32 then Nat.lor (Nat.land d b) (Nat.land (not32 d) c)
    else if i < 48 then Nat.xor b (Nat.xor c d)
    else Nat.xor c (Nat.lor b (not32 d))
  let g :=
    if i < 16 then i
    else if i < 32 then (5 * i + 1) % 16
    else if i < 48 then (3 * i + 5) % 16
    else (7 * i) % 16
  let f := add32 (add32 (add32 f a) (md5K.getD i 0)) (m.getD g 0)
  (d, add32 b (rotl32 f (md5S.getD i 0)), b, c)

/-- Process one 64-byte block into the MD5 state. -/
def md5Block (st : Nat × Nat × Nat × Nat) (block : List Nat) :
    Nat × Nat × Nat × Nat :=
  let m := blockWords leWord block
  let (a, b, c, d) := (List.range 64).foldl (md5Round m) st
  let (a0, b0, c0, d0) := st
  (add32 a0 a, add32 b0 b, add32 c0 c, add32 d0 d)

/-- MD5 padding: a 0x80 byte, zeros to 56 mod 64, then the 64-bit
little-endian bit length. -/
def md5Pad (msg : List Nat) : List Nat :=
  let len := msg.length
  let zeros := (64 + 56 - (len + 1) % 64) % 64
  msg ++ [128] ++ List.replicate zeros 0 ++ leBytes 8 (8 * len)

/-- The 16 MD5 digest bytes of a byte list. -/
def md5Bytes (msg : List Nat) : List Nat :=
  let (a, b, c, d) :=
    (chunks64 (md5Pad msg)).foldl md5Block
      (1732584193, 4023233417, 2562383102, 271733878)
  leBytes 4 a ++ leBytes 4 b ++ leBytes 4 c ++ leBytes 4 d

/-- The lowercase-hex MD5 digest of a byte list, as the validator computes
with `fmt.Sprintf("%x", md5Hash.Sum(nil))`. -/
def md5Hex (msg : List Nat) : String := hexOfBytes (md5Bytes msg)

/-! ## SHA-256 (FIPS 180-4), as used by Go `crypto/sha256` -/

/-- The 64 SHA-256 round constants (decimal). -/
def sha256K : List Nat :=
  [1116352408, 1899447441, 3049323471, 3921009573, 961987163, 1508970993,
   2453635748, 2870763221, 3624381080, 310598401, 607225278, 1426881987,
   1925078388, 2162078206, 2614888103, 3248222580, 3835390401, 4022224774,
   264347078, 604807628, 770255983, 1249150122, 1555081692, 1996064986,
   2554220882, 2821834349, 2952996808, 3210313671, 3336571891, 3584528711,
   113926993, 338241895, 666307205, 773529912, 1294757372, 1396182291,
   1695183700, 1986661051, 2177026350, 2456956037, 2730485921, 2820302411,
   3259730800, 3345764771, 3516065817, 3600352804, 4094571909, 275423344,
   430227734, 506948616, 659060556, 883997877, 958139571, 1322822218,
   1537002063, 1747873779, 1955562222, 2024104815, 2227730452, 2361852424,
   2428436474, 2756734187, 3204031479, 3329325298]

/-- Extend the 16 block words to the 64-word SHA-256 message schedule. -/
def sha256Schedule (ws : List Nat) : List Nat :=
  (List.range 48).foldl
    (fun w _ =>
      let i := w.length
      let x15 := w.getD (i - 15) 0
      let x2 := w.getD (i - 2) 0
      let s0 := Nat.xor (rotr32 x15 7) (Nat.xor (rotr32 x15 18) (Nat.shiftRight x15 3))
      let s1 := Nat.xor (rotr32 x2 17) (Nat.xor (rotr32 x2 19) (Nat.shiftRight x2 10))
      w ++ [add32 (add32 (w.getD (i - 16) 0) s0) (add32 (w.getD (i - 7) 0) s1)])
    ws

/-- One SHA-256 compression round. -/
def sha256Round (w : List Nat)
    (st : Nat × Nat × Nat × Nat × Nat × Nat × Nat × Nat) (i : Nat) :
    Nat × Nat × Nat × Nat × Nat × Nat × Nat × Nat :=
  let (a, b, c, d, e, f, g, h) := st
  let s1 := Nat.xor (rotr32 e 6) (Nat.xor (rotr32 e 11) (rotr32 e 25))
  let ch := Nat.xor (Nat.land e f) (Nat.land (not32 e) g)
  let t1 := add32 (add32 (add32 h s1) (add32 ch (sha256K.getD i 0))) (w.getD i 0)
  let s0 := Nat.xor (rotr32 a 2) (Nat.xor (rotr32 a 13) (rotr32 a 22))
  let maj := Nat.xor (Nat.land a b) (Nat.xor (Nat.land a c) (Nat.land b c))
  let t2 := add32 s0 maj
  (add32 t1 t2, a, b, c, add32 d t1, e, f, g)

/-- Process one 64-byte block into the SHA-256 state. -/
def sha256Block (st : Nat × Nat × Nat × Nat × Nat × Nat × Nat × Nat)
    (block : List Nat) : Nat × Nat × Nat × Nat × Nat × Nat × Nat × Nat :=
  let w := sha256Schedule (blockWords beWord block)
  let (a, b, c, d, e, f, g, h) := (List.range 64).foldl (sha256Round w) st
  let (a0, b0, c0, d0, e0, f0, g0, h0) := st
  (add32 a0 a, add32 b0 b, add32 c0 c, add32 d0 d,
   add32 e0 e, add32 f0 f, add32 g0 g, add32 h0 h)

/-- SHA-256 padding: a 0x80 byte, zeros to 56 mod 64, then the 64-bit
big-endian bit length. -/
def sha256Pad (msg : List Nat) : List Nat :=
  let len := msg.length
  let zeros := (64 + 56 - (len + 1) % 64) % 64
  msg ++ [128] ++ List.replicate zeros 0 ++ beBytes 8 (8 * len)

/-- The 32 SHA-256 digest bytes of a byte list. -/
def sha256Bytes (msg : List Nat) : List Nat :=
  let (a, b, c, d, e, f, g, h) :=
    (chunks64 (sha256Pad msg)).foldl sha256Block
      (1779033703, 3144134277, 1013904242, 2773480762,
       1359893119, 2600822924, 528734635, 1541459225)
  beBytes 4 a ++ beBytes 4 b ++ beBytes 4 c ++ beBytes 4 d ++
    beBytes 4 e ++ beBytes 4 f ++ beBytes 4 g ++ beBytes 4 h

/-- The lowercase-hex SHA-256 digest of a byte list. -/
def sha256Hex (msg : List Nat) : String := hexOfBytes (sha256Bytes msg)

/-! ## Data model (`models` package)

Only the fields the validator reads or writes are carried; timestamp and
UUID fields (wall-clock data) are omitted. -/

/-- `models.Tag`: one tag parsed from a tag file. -/
structure Tag where
  sourceFile : String
  label : String
  value : String
  deriving Repr, DecidableEq

/-- `models.GenericFile`: the per-file record kept in the validation db. -/
structure GenericFile where
  identifier : String
  intellectualObjectIdentifier : String := ""
  fileFormat : String := ""
  size : Int := 0
  ingestFileType : String := ""
  ingestMd5 : String := ""
  ingestSha256 : String := ""
  ingestManifestMd5 : String := ""
  ingestManifestSha256 : String := ""
  deriving Repr, DecidableEq

/-- `models.IntellectualObject`: the object-level record, without events
and files (those are stored separately in the db). -/
structure IntellectualObject where
  identifier : String := ""
  title : String := ""
  description : String := ""
  access : String := ""
  institution : String := ""
  altIdentifier : String := ""
  ingestTags : List Tag := []
  deriving Repr, DecidableEq

/-- `constants.TAG_MANIFEST` and friends (file-type classification). -/
def TAG_MANIFEST : String := "tag_manifest"

/-- `constants.PAYLOAD_MANIFEST`. -/
def PAYLOAD_MANIFEST : String := "payload_manifest"

/-- `constants.PAYLOAD_FILE`. -/
def PAYLOAD_FILE : String := "payload_file"

/-- `constants.TAG_FILE`. -/
def TAG_FILE : String := "tag_file"

/-- `constants.AlgMd5`. -/
def AlgMd5 : String := "md5"

/-- `constants.AlgSha256`. -/
def AlgSha256 : String := "sha256"

/-! ## Bag model

A bag is a list of entries as yielded by the file iterators
(`fileutil.ReadIterator`): relative path, regular-file flag, content.
The validator iterates the same list twice (pass 1 and pass 2), exactly as
the source calls `getIterator()` twice. -/

/-- One entry yielded by a file iterator (`fileutil.FileSummary` plus the
byte stream). -/
structure FileEntry where
  relPath : String
  isRegularFile : Bool := true
  content : String := ""
  deriving Repr, DecidableEq

/-- `fileSummary.Size`: the byte size of the entry. -/
def FileEntry.size (fs : FileEntry) : Int := (strBytes fs.content).length

/-- Go `panic` outcomes the embedding can produce. -/
inductive GoPanic
  | nilPointerDereference
  deriving Repr, DecidableEq

/-! ## Validator (`validation/validator.go`) -/

/-- `validation.BagValidationConfig`, restricted to the fields the
validator reads: the fixity algorithm list and, per file spec, the
`ParseAsTagFile` flag. -/
structure BagValidationConfig where
  fixityAlgorithms : List String := []
  fileSpecs : List (String × Bool) := []

/-- The `Validator` struct: configuration digested by `NewValidator`.
`guessMime` stands for `platform.GuessMimeTypeByBuffer` (an external
libmagic binding), passed in as the environment. -/
structure Validator where
  objIdentifier : String
  preserveExtendedAttributes : Bool
  calculateMd5 : Bool
  calculateSha256 : Bool
  tagFilesToParse : List String
  guessMime : List Nat → String

/-- `NewValidator`: computes the md5/sha256 flags by membership of the
algorithm names in `FixityAlgorithms` and collects the file-spec paths
marked `ParseAsTagFile`. -/
def NewValidator (objIdentifier : String) (cfg : BagValidationConfig)
    (preserve : Bool) (guess : List Nat → String) : Validator :=
  { objIdentifier := objIdentifier
    preserveExtendedAttributes := preserve
    calculateMd5 := cfg.fixityAlgorithms.contains AlgMd5
    calculateSha256 := cfg.fixityAlgorithms.contains AlgSha256
    tagFilesToParse := (cfg.fileSpecs.filter (·.2)).map (·.1)
    guessMime := guess }

/-- The validator's mutable state: the validation db (objects and files),
the summary error list, and the manifest name lists built in pass 1. -/
structure VState where
  objs : List (String × IntellectualObject) := []
  files : List (String × GenericFile) := []
  errors : List String := []
  manifests : List String := []
  tagManifests : List String := []

/-- `getIntellectualObject` / `initIntellectualObject`: fetch the object
record, creating and saving a bare one when absent. -/
def getIntellectualObject (v : Validator) (st : VState) :
    IntellectualObject × VState :=
  match lookupAssoc st.objs v.objIdentifier with
  | some obj => (obj, st)
  | none =>
    let obj : IntellectualObject := { identifier := v.objIdentifier }
    (obj, { st with objs := saveAssoc st.objs v.objIdentifier obj })

/-- `setFileType`: classify the entry by relative path and accumulate
manifest names for pass 2. -/
def setFileType (_v : Validator) (gf : GenericFile) (fs : FileEntry)
    (st : VState) : GenericFile × VState :=
  if ("tagmanifest-".data).isPrefixOf fs.relPath.data then
    ({ gf with ingestFileType := TAG_MANIFEST, fileFormat := "text/plain" },
     { st with tagManifests := st.tagManifests ++ [fs.relPath] })
  else if ("manifest-".data).isPrefixOf fs.relPath.data then
    ({ gf with ingestFileType := PAYLOAD_MANIFEST, fileFormat := "text/plain" },
     { st with manifests := st.manifests ++ [fs.relPath] })
  else if ("data/".data).isPrefixOf fs.relPath.data then
    ({ gf with ingestFileType := PAYLOAD_FILE }, st)
  else
    ({ gf with ingestFileType := TAG_FILE }, st)

/-- `calculateChecksums`: feed the reader once through every enabled hash
(an `io.MultiWriter` fan-out) and record the hex digests.  Returns the
updated record and the number of bytes consumed from the reader: the
`io.Copy` runs only under `len(hashes) > 0`, so nothing is read when no
algorithm is enabled. -/
def calculateChecksums (v : Validator) (content : List Nat)
    (gf : GenericFile) : GenericFile × Nat :=
  let hashCount := (if v.calculateMd5 then 1 else 0) +
    (if v.calculateSha256 then 1 else 0)
  if hashCount > 0 then
    let gf := if v.calculateMd5 then { gf with ingestMd5 := md5Hex content } else gf
    let gf := if v.calculateSha256 then { gf with ingestSha256 := sha256Hex content } else gf
    (gf, content.length)
  else
    (gf, 0)

/-- `addFile` (pass 1): skip non-regular entries, build the GenericFile
record, compute digests, save into the db. -/
def addFile (v : Validator) (st : VState) (fs : FileEntry) : VState :=
  if !fs.isRegularFile then st
  else
    let gf : GenericFile := { identifier := v.objIdentifier ++ "/" ++ fs.relPath }
    let (gf, st) := setFileType v gf fs st
    let gf := if v.preserveExtendedAttributes then
        { gf with intellectualObjectIdentifier := v.objIdentifier,
                  size := fs.size }
      else gf
    let (gf, _) := calculateChecksums v (strBytes fs.content) gf
    { st with files := saveAssoc st.files gf.identifier gf }

/-- `addFiles` (pass 1 loop): iterate every entry to end-of-input. -/
def addFiles (v : Validator) (entries : List FileEntry) (st : VState) : VState :=
  entries.foldl (addFile v) st

/-! ### Tag-file parsing (`parseTags`) -/

/-- The submatch extraction of the tag-line pattern `(\S*\:)?(\s.*)?`
anchored at both ends.  A line matches with a non-empty first group iff its
maximal leading non-whitespace run is non-empty and ends in a colon (the
remainder then necessarily starts with whitespace or is empty); it matches
with an empty first group iff it is empty or starts with whitespace;
otherwise it does not match. -/
def tagLineSplit (line : List Char) : Option (List Char × List Char) :=
  let p0 := line.takeWhile (fun c => !goSpace c)
  if p0 ≠ [] ∧ p0.getLast? = some ':' then some (p0, line.drop p0.length)
  else if p0 = [] then some ([], line)
  else none

/-- `setIntelObjTagValue`: promote certain tag labels (compared
case-insensitively) from `aptrust-info.txt` and `bag-info.txt` to object
attributes. -/
def setIntelObjTagValue (obj : IntellectualObject) (tag : Tag) :
    IntellectualObject :=
  if tag.sourceFile = "aptrust-info.txt" then
    let label := lowerStr tag.label
    if label = "title" then { obj with title := tag.value }
    else if label = "access" then { obj with access := tag.value }
    else obj
  else if tag.sourceFile = "bag-info.txt" then
    let label := lowerStr tag.label
    if label = "source-organization" then { obj with institution := tag.value }
    else if label = "internal-sender-description" then { obj with description := tag.value }
    else if label = "internal-sender-identifier" then { obj with altIdentifier := tag.value }
    else obj
  else obj

/-- The loop state of `parseTags`: the object being decorated, the current
tag pointer (`nil` before any tag line was seen), accumulated errors. -/
structure TagState where
  obj : IntellectualObject
  cur : Option Tag := none
  errors : List String := []

/-- Append the current tag to the object, guarded exactly as the source:
only when the pointer is non-nil and the label is non-empty. -/
def appendCurTag (st : TagState) : TagState :=
  match st.cur with
  | some t =>
    if t.label ≠ "" then
      { st with obj := { st.obj with ingestTags := st.obj.ingestTags ++ [t] } }
    else st
  | none => st

/-- One non-blank line of `parseTags`.  A line with a non-empty label
starts a new tag (appending the previous one); a matching line with an
empty label is a continuation and dereferences the current tag pointer,
panicking when it is nil; a non-matching line adds a parse error. -/
def parseTagsStep (relFilePath : String) (st : TagState) (line : List Char) :
    Except GoPanic TagState :=
  match tagLineSplit line with
  | none =>
    Except.ok { st with errors := st.errors ++
      ["Unable to parse tag data from line: \x27" ++ String.mk line ++ "\x27"] }
  | some (d1, d2) =>
    let label := removeFirstColon d1
    if label ≠ [] then
      let st := appendCurTag st
      let t : Tag := { sourceFile := relFilePath, label := ⟨label⟩,
                       value := ⟨trimCharC ' ' d2⟩ }
      Except.ok { st with obj := setIntelObjTagValue st.obj t, cur := some t }
    else
      match st.cur with
      | none => Except.error GoPanic.nilPointerDereference
      | some t =>
        let t := { t with value := t.value ++ " " ++ String.mk (trimCharC ' ' d2) }
        Except.ok { st with obj := setIntelObjTagValue st.obj t, cur := some t }

/-- The scanner loop of `parseTags`: blank lines (empty after
`strings.TrimSpace`) are skipped — without resetting the current tag. -/
def parseTagsLoop (relFilePath : String) :
    List (List Char) → TagState → Except GoPanic TagState
  | [], st => Except.ok st
  | line :: rest, st =>
    if (trimSpaceC line).isEmpty then parseTagsLoop relFilePath rest st
    else
      match parseTagsStep relFilePath st line with
      | Except.ok st2 => parseTagsLoop relFilePath rest st2
      | Except.error e => Except.error e

/-- `parseTags`: fetch the object, run the scanner loop, run the final
`tag.Label` check (a nil dereference when the file produced no tag), and
save the object back. -/
def parseTags (v : Validator) (st : VState) (content : String)
    (relFilePath : String) : Except GoPanic VState :=
  let (obj, st) := getIntellectualObject v st
  match parseTagsLoop relFilePath (splitLinesC content.data) { obj := obj } with
  | Except.error e => Except.error e
  | Except.ok tst =>
    match tst.cur with
    | none => Except.error GoPanic.nilPointerDereference
    | some t =>
      let tst := if t.label ≠ "" then
          { tst with obj := { tst.obj with ingestTags := tst.obj.ingestTags ++ [t] } }
        else tst
      Except.ok { st with errors := st.errors ++ tst.errors,
                          objs := saveAssoc st.objs v.objIdentifier tst.obj }

/-! ### Manifest parsing (`parseManifest`) -/

/-- The submatch extraction of the manifest-line pattern `^(\S*)\s*(.*)`:
the digest is the maximal leading non-whitespace run, the file path is the
remainder after the following maximal whitespace run.  The pattern matches
every line, so the unparsable-line branch of the source is unreachable. -/
def manifestLineParse (line : List Char) : List Char × List Char :=
  let digest := line.takeWhile (fun c => !goSpace c)
  (digest, (line.drop digest.length).dropWhile goSpace)

/-- One non-blank line of `parseManifest`.  Faithful to the source: the
GenericFile is looked up under the bare `filePath` from the manifest line
(not under `objIdentifier/filePath`), and on success the record is saved
back under `gfIdentifier`, which the source computes from the manifest's
own relative path. -/
def parseManifestLine (v : Validator) (manifestRelPath alg : String)
    (st : VState) (line : List Char) : VState :=
  if (trimSpaceC line).isEmpty then st
  else
    let (digest, filePath) := manifestLineParse line
    let gfIdentifier := v.objIdentifier ++ "/" ++ manifestRelPath
    match lookupAssoc st.files ⟨filePath⟩ with
    | none =>
      { st with errors := st.errors ++
        ["File \x27" ++ String.mk filePath ++ "\x27 in manifest \x27" ++
          manifestRelPath ++ "\x27 is missing from bag"] }
    | some gf =>
      let (gf, update) :=
        if alg = AlgMd5 then ({ gf with ingestManifestMd5 := ⟨digest⟩ }, true)
        else if alg = AlgSha256 then ({ gf with ingestManifestSha256 := ⟨digest⟩ }, true)
        else (gf, false)
      if update then { st with files := saveAssoc st.files gfIdentifier gf }
      else st

/-- `parseManifest`: pick the algorithm from the manifest's file name
(`sha256` checked before `md5`; anything else is only a note to stderr and
the manifest is skipped), then process each line. -/
def parseManifest (v : Validator) (st : VState) (content : String)
    (manifestRelPath : String) : VState :=
  if strContains manifestRelPath AlgSha256 then
    (splitLinesC content.data).foldl
      (parseManifestLine v manifestRelPath AlgSha256) st
  else if strContains manifestRelPath AlgMd5 then
    (splitLinesC content.data).foldl
      (parseManifestLine v manifestRelPath AlgMd5) st
  else st

/-! ### Mime typing and pass 2 -/

/-- `setMimeType`: compute the record's mime type from a sniff buffer of at
most 128 bytes.  For a file of size below 2 the buffer length `Size - 1`
falls below 1 and the format is set to `text/empty`.  Runs only under
`PreserveExtendedAttributes`. -/
def setMimeType (v : Validator) (content : List Nat) (gf : GenericFile) :
    GenericFile :=
  let bufLen : Int := if gf.size < 128 then gf.size - 1 else 128
  if bufLen < 1 then { gf with fileFormat := "text/empty" }
  else { gf with fileFormat := v.guessMime (content.take bufLen.toNat) }

/-- `parseOrSetMimeType`: dispatch a pass-2 entry to tag parsing, manifest
parsing, or mime sniffing.  The `FileFormat` updates made here on the
in-memory record (both the text/plain adjustment for parsed tag files and
the `setMimeType` result) are never saved back to the validation db. -/
def parseOrSetMimeType (v : Validator) (st : VState) (fs : FileEntry)
    (gf : GenericFile) : Except GoPanic VState :=
  let parseAsTagFile := v.tagFilesToParse.contains fs.relPath
  let parseAsManifest := st.manifests.contains fs.relPath ||
    st.tagManifests.contains fs.relPath
  if parseAsTagFile then
    parseTags v st fs.content fs.relPath
  else if parseAsManifest then
    Except.ok (parseManifest v st fs.content fs.relPath)
  else if v.preserveExtendedAttributes then
    let _ := setMimeType v (strBytes fs.content) gf
    Except.ok st
  else Except.ok st

/-- One entry of pass 2 (`parseManifestsTagFilesAndMimeTypes` body): fetch
the record saved in pass 1 — an entry with no record (e.g. a non-regular
entry skipped in pass 1) adds a summary error — then dispatch. -/
def pass2Entry (v : Validator) (st : VState) (fs : FileEntry) :
    Except GoPanic VState :=
  let gfIdentifier := v.objIdentifier ++ "/" ++ fs.relPath
  match lookupAssoc st.files gfIdentifier with
  | none =>
    Except.ok { st with errors := st.errors ++
      ["Cannot find \x27" ++ gfIdentifier ++ "\x27 in validation db"] }
  | some gf => parseOrSetMimeType v st fs gf

/-- The pass-2 loop over a fresh iterator. -/
def pass2Loop (v : Validator) :
    List FileEntry → VState → Except GoPanic VState
  | [], st => Except.ok st
  | fs :: rest, st =>
    match pass2Entry v st fs with
    | Except.ok st2 => pass2Loop v rest st2
    | Except.error e => Except.error e

/-- `readBag`: initialize the object record, run pass 1; when pass 1 added
errors, stop; otherwise run pass 2. -/
def readBag (v : Validator) (entries : List FileEntry) (st : VState) :
    Except GoPanic VState :=
  let (_, st) := getIntellectualObject v st
  let st := addFiles v entries st
  if st.errors ≠ [] then Except.ok st
  else pass2Loop v entries st

/-- The observable result of `Validate`: the summary error list (the
summary succeeds iff it is empty), the attempted flag, and the final
validation db. -/
structure ValidationRun where
  summaryErrors : List String
  attempted : Bool
  files : List (String × GenericFile)
  objs : List (String × IntellectualObject)
  deriving Repr, DecidableEq

/-- `Validate`: open the db, mark the summary started and attempted, run
`readBag`, and finish.  The structural / file-spec / tag-spec / checksum
verification calls that would follow `readBag` are commented out in the
source under a `TODO: START HERE` marker, so no verification errors are
ever added. -/
def Validate (v : Validator) (entries : List FileEntry) :
    Except GoPanic ValidationRun :=
  match readBag v entries {} with
  | Except.error e => Except.error e
  | Except.ok st =>
    Except.ok { summaryErrors := st.errors, attempted := true,
                files := st.files, objs := st.objs }

/-! ## S3 upload client (`network/s3_upload.go`)

The AWS SDK is abstracted as an environment of three fallible operations:
opening the local file, creating a session, and running the upload. -/

/-- `s3manager.UploadOutput` (the `Location` field). -/
structure UploadOutput where
  location : String
  deriving Repr, DecidableEq

/-- `s3manager.UploadInput`, restricted to the fields the client sets. -/
structure UploadInput where
  bucket : String
  key : String
  contentType : String
  metadata : List (String × String) := []
  bodySet : Bool := false
  deriving Repr, DecidableEq

/-- An AWS session handle. -/
structure S3Session where
  region : String
  deriving Repr, DecidableEq

/-- The effectful surface `Send` touches: `os.Open`, `GetS3Session`, and
`uploader.Upload`. -/
structure S3Env where
  openFile : String → Except String Unit
  getS3Session : String → Except String S3Session
  upload : S3Session → UploadInput → Except String UploadOutput

/-- The `S3Upload` client struct. -/
structure S3Upload where
  awsRegion : String
  localPath : String
  errorMessage : String := ""
  uploadInput : UploadInput
  response : Option UploadOutput := none
  session : Option S3Session := none
  deriving Repr, DecidableEq

/-- `NewS3Upload`: store region and local path and prepare the upload
input with bucket, key, content type and empty metadata. -/
def NewS3Upload (region bucket key localPath contentType : String) : S3Upload :=
  { awsRegion := region, localPath := localPath,
    uploadInput := { bucket := bucket, key := key, contentType := contentType } }

/-- `GetSession`.  In the source the `err != nil` check precedes the
assignment `client.session, err = GetS3Session(client.AWSRegion)`, so `err`
is still nil when checked and `ErrorMessage` is never set here; a failed
session creation only leaves `session` nil. -/
def S3Upload.GetSession (env : S3Env) (c : S3Upload) : S3Upload :=
  if c.session.isNone then
    match env.getS3Session c.awsRegion with
    | Except.ok s => { c with session := some s }
    | Except.error _ => c
  else c

/-- `Send`: open the local file (recording an open error), get the
session — returning with no further action when it is nil — then run the
upload, recording the response on success or the error message on
failure. -/
def S3Upload.Send (env : S3Env) (c : S3Upload) : S3Upload :=
  match env.openFile c.localPath with
  | Except.error e => { c with errorMessage := e }
  | Except.ok _ =>
    let c := S3Upload.GetSession env c
    match c.session with
    | none => c
    | some s =>
      let c := { c with uploadInput := { c.uploadInput with bodySet := true } }
      match env.upload s c.uploadInput with
      | Except.ok out => { c with response := some out }
      | Except.error e => { c with errorMessage := e }

/-! ## Stage framework outcomes and the cold-tier restore-init stage

The worker source (`workers/apt_glacier_restore_init.go`) and the stage
framework are not part of the repository snapshot; only the worker's test
file is.  The definitions below are modelled from the specification
(sections 4.6 and 4.8) and agree with the behaviour asserted by the
tests. -/

/-- `models.WorkItem`, restricted to the fields the claims touch. -/
structure WorkItem where
  objectIdentifier : String := ""
  genericFileIdentifier : String := ""
  action : String := ""
  stage : String := ""
  status : String := ""
  note : String := ""
  retry : Bool := true
  needsAdminReview : Bool := false
  deriving Repr, DecidableEq

/-- `models.GlacierRestoreRequest`: the per-file cold-tier restore record
(timestamps omitted). -/
structure GlacierRestoreRequest where
  genericFileIdentifier : String
  requestAccepted : Bool := false
  isAvailableInS3 : Bool := false
  someoneElseRequested : Bool := false
  deriving Repr, DecidableEq

/-- Modelled from the spec: the outcome alphabet of `restoreColdTier`. -/
inductive RestoreResponse
  | accepted
  | rejected
  | alreadyInProgress
  deriving Repr, DecidableEq

/-- Modelled from the spec: what a HEAD on a cold-tier object reports. -/
inductive HeadResponse
  | inProgress
  | completed
  deriving Repr, DecidableEq

/-- Modelled from the spec: the cold-tier store at its interface
(`restoreColdTier` and HEAD), keyed by file identifier. -/
structure ColdStore where
  restoreResp : String → RestoreResponse
  headResp : String → HeadResponse

/-- Modelled from the spec: steps 2-4 of section 4.8 for one file.  A
not-yet-accepted request issues `restoreColdTier`: accepted or
already-in-progress marks it accepted, rejected leaves it unset.  An
accepted request is HEADed: in-progress leaves it thawing, completed marks
it available in primary. -/
def processRequest (store : ColdStore) (r : GlacierRestoreRequest) :
    GlacierRestoreRequest :=
  if !r.requestAccepted then
    match store.restoreResp r.genericFileIdentifier with
    | RestoreResponse.accepted => { r with requestAccepted := true }
    | RestoreResponse.alreadyInProgress => { r with requestAccepted := true }
    | RestoreResponse.rejected => r
  else
    match store.headResp r.genericFileIdentifier with
    | HeadResponse.inProgress => r
    | HeadResponse.completed => { r with isAvailableInS3 := true }

/-- How one pass of a stage disposes of its message. -/
inductive StageOutcome
  | finishSuccess (created : WorkItem)
  | requeue (delayMinutes : Nat)
  deriving Repr, DecidableEq

/-- Modelled from the spec: the downstream restore WorkItem created when
every file is available in primary storage — action=restore,
stage=requested, status=pending, retry on. -/
def restoreWorkItemFor (item : WorkItem) : WorkItem :=
  { objectIdentifier := item.objectIdentifier,
    genericFileIdentifier := item.genericFileIdentifier,
    action := "restore", stage := "requested", status := "pending",
    retry := true }

/-- Modelled from the spec: the after-scan decision of section 4.8 — if
every request is available-in-primary, create the restore WorkItem and
finish with success; if any request still needs to be made, requeue with a
one-minute delay; otherwise (all accepted, some still thawing) requeue
with a two-hour delay. -/
def afterScanDecision (item : WorkItem) (reqs : List GlacierRestoreRequest) :
    StageOutcome :=
  if reqs.all (fun r => r.isAvailableInS3) then
    StageOutcome.finishSuccess (restoreWorkItemFor item)
  else if reqs.any (fun r => !r.requestAccepted) then
    StageOutcome.requeue 1
  else
    StageOutcome.requeue 120

/-- Modelled from the spec: one pass of the restore-init stage — process
every per-file request record against the store, then decide. -/
def glacierOnePass (store : ColdStore) (item : WorkItem)
    (reqs : List GlacierRestoreRequest) :
    List GlacierRestoreRequest × StageOutcome :=
  let rs := reqs.map (processRequest store)
  (rs, afterScanDecision item rs)

/-- `models.WorkSummary`, restricted to the ordered error list. -/
structure WorkSummary where
  errors : List String := []
  deriving Repr, DecidableEq

/-- Modelled from the spec: `WorkSummary.AllErrorsAsString`, the full
concatenated error list carried into the work-item note. -/
def allErrorsAsString (s : WorkSummary) : String :=
  String.intercalate "\n" s.errors

/-- How a worker disposed of its broker message. -/
inductive MessageOp
  | finish
  | requeue (delayMinutes : Nat)
  | touch
  | pending
  deriving Repr, DecidableEq

/-- The per-message state a stage handler carries: the work item, its
summary, and the message disposition. -/
structure WorkerState where
  workItem : WorkItem
  workSummary : WorkSummary := {}
  messageOp : MessageOp := MessageOp.pending
  deriving Repr, DecidableEq

/-- Modelled from the spec: the `fail-fatal` outcome of section 4.6
(`FinishWithError` in the worker tests) — status=failed, retry=false,
needs-admin-review=true, the note set to the full concatenated error list,
and the message acknowledged (finish) so it is not retried. -/
def finishWithError (st : WorkerState) : WorkerState :=
  { st with
    workItem := { st.workItem with
      note := allErrorsAsString st.workSummary,
      status := "failed", retry := false, needsAdminReview := true },
    messageOp := MessageOp.finish }

/-! ## Shared list lemmas -/

/-- `takeWhile` passes over a prefix whose elements all satisfy the
predicate. -/
theorem takeWhile_append_all {α : Type} {p : α → Bool} {xs ys : List α}
    (h : ∀ x ∈ xs, p x = true) :
    (xs ++ ys).takeWhile p = xs ++ ys.takeWhile p := by
  induction xs with
  | nil => simp
  | cons a l ih =>
    have ha : p a = true := h a (List.mem_cons_self a l)
    simp only [List.cons_append, List.takeWhile_cons, ha, ite_true]
    exact congrArg (a :: ·) (ih (fun x hx => h x (List.mem_cons_of_mem a hx)))

/-- `dropWhile` removes a prefix whose elements all satisfy the
predicate. -/
theorem dropWhile_append_all {α : Type} {p : α → Bool} {xs ys : List α}
    (h : ∀ x ∈ xs, p x = true) :
    (xs ++ ys).dropWhile p = ys.dropWhile p := by
  induction xs with
  | nil => simp
  | cons a l ih =>
    have ha : p a = true := h a (List.mem_cons_self a l)
    simp only [List.cons_append, List.dropWhile_cons, ha, ite_true]
    exact ih (fun x hx => h x (List.mem_cons_of_mem a hx))

/-- Trimming only spaces from a value wrapped in space padding recovers the
value when it neither starts nor ends with a space. -/
theorem trimCharC_space_padding (core : List Char) (m n : Nat)
    (hcore : core = [] ∨ (core.head? ≠ some ' ' ∧ core.reverse.head? ≠ some ' ')) :
    trimCharC ' ' (List.replicate m ' ' ++ core ++ List.replicate n ' ') = core := by
  have hrep : ∀ k : Nat, ∀ x ∈ List.replicate k ' ', decide (x = ' ') = true := by
    intro k x hx
    simp [List.eq_of_mem_replicate hx]
  have h1 : (List.replicate n ' ').dropWhile (fun x => decide (x = ' ')) = [] := by
    induction n with
    | zero => rfl
    | succ k ih => simp [List.replicate_succ, List.dropWhile_cons, ih]
  unfold trimCharC
  rw [List.append_assoc, dropWhile_append_all (hrep m)]
  rcases hcore with hc | ⟨hhead, hlast⟩
  · subst hc
    rw [List.nil_append, h1]
    simp
  · match core with
    | [] => rw [List.nil_append, h1]; simp
    | c :: cs =>
      have hc : decide (c = ' ') = false := by
        simp only [List.head?_cons, ne_eq, Option.some.injEq] at hhead
        simp [hhead]
      rw [List.cons_append, List.dropWhile_cons, hc]
      simp only [Bool.false_eq_true, ite_false]
      rw [← List.cons_append, List.reverse_append, List.reverse_replicate,
        dropWhile_append_all (hrep n)]
      have h2 : ((c :: cs).reverse).dropWhile (fun x => decide (x = ' ')) =
          (c :: cs).reverse := by
        cases hrev : (c :: cs).reverse with
        | nil => simp at hrev
        | cons d ds =>
          have hd : decide (d = ' ') = false := by
            rw [hrev] at hlast
            simp only [List.head?_cons, ne_eq, Option.some.injEq] at hlast
            simp [hlast]
          rw [List.dropWhile_cons, hd]
          simp
      rw [h2, List.reverse_reverse]

/-! ## Claim theorems -/

set_option maxRecDepth 100000

/-- A mime guesser for concrete runs (stands for the libmagic binding,
which is irrelevant to the validation outcomes below). -/
def binaryGuess : List Nat → String := fun _ => "application/binary"

/-- The boundary bag of claim C1: `manifest-md5.txt` lists `data/a.pdf`
with an all-zero digest while the payload file has a different md5. -/
def c1Bag : List FileEntry :=
  [ { relPath := "data/a.pdf", content := "x" },
    { relPath := "manifest-md5.txt",
      content := "00000000000000000000000000000000 data/a.pdf" } ]

/-- The validator for the C1 bag: md5 enabled, plain validation. -/
def c1Validator : Validator :=
  NewValidator "test.edu/bag" { fixityAlgorithms := [AlgMd5] } false binaryGuess

/-- Claim C1 (code bug): on a bag whose `manifest-md5.txt` lists a wrong
digest for a payload file, `Validate` never emits a "bad checksum" error.
The digest-verification pass is commented out in the source under a
`TODO: START HERE` marker, and `parseManifest` looks the referenced file up
under the bare manifest path, so the only error produced is a spurious
"missing from bag" — the computed md5 is recorded but never compared. -/
theorem c1_wrong_manifest_digest_yields_no_bad_checksum_error :
    (Validate c1Validator c1Bag).map ValidationRun.summaryErrors =
      Except.ok
        ["File \x27data/a.pdf\x27 in manifest \x27manifest-md5.txt\x27 is missing from bag"] ∧
    (Validate c1Validator c1Bag).map
        (fun r => r.summaryErrors.any (fun e => strContains e "bad checksum")) =
      Except.ok false ∧
    (Validate c1Validator c1Bag).map
        (fun r => (lookupAssoc r.files "test.edu/bag/data/a.pdf").map
          (fun gf => (gf.ingestMd5, gf.ingestManifestMd5))) =
      Except.ok (some ("9dd4e461268c8034f5c8564e155c67a6", "")) :=
  ⟨rfl, rfl, rfl⟩

/-- The bag of claim C2: the payload file `data/b.txt` is present and the
md5 manifest lists it with its correct digest. -/
def c2Bag : List FileEntry :=
  [ { relPath := "data/b.txt", content := "hello" },
    { relPath := "manifest-md5.txt",
      content := "5d41402abc4b2a76b9719d911017c592 data/b.txt" } ]

/-- The validator for the C2 bag. -/
def c2Validator : Validator :=
  NewValidator "test.edu/bag" { fixityAlgorithms := [AlgMd5] } false binaryGuess

/-- Claim C2 (code bug): after the second pass, the side-index record of a
file correctly listed in the md5 manifest does NOT carry the
manifest-reported digest, and a spurious "missing from bag" error is
reported.  `parseManifest` looks the file up under the bare relative path
from the manifest line, while records are keyed by
`objectIdentifier/relativePath`, so the lookup always misses.  The
computed digest (`ingestMd5`) equals the digest on the manifest line, yet
`ingestManifestMd5` stays empty. -/
theorem c2_manifest_digest_never_recorded :
    (Validate c2Validator c2Bag).map
        (fun r => (lookupAssoc r.files "test.edu/bag/data/b.txt").map
          (fun gf => (gf.ingestMd5, gf.ingestManifestMd5))) =
      Except.ok (some ("5d41402abc4b2a76b9719d911017c592", "")) ∧
    (Validate c2Validator c2Bag).map ValidationRun.summaryErrors =
      Except.ok
        ["File \x27data/b.txt\x27 in manifest \x27manifest-md5.txt\x27 is missing from bag"] :=
  ⟨rfl, rfl⟩

/-- The validator for the C3 bags: `aptrust-info.txt` is marked
parse-as-tag-file; no checksum algorithms are enabled. -/
def c3Validator : Validator :=
  NewValidator "test.edu/bag" { fileSpecs := [("aptrust-info.txt", true)] }
    false binaryGuess

/-- Claim C3 (code bug): `Validate` does not return normally on every bag.
A parse-as-tag-file tag file that is empty, whitespace-only, or begins
with a continuation line drives `parseTags` into a nil-pointer dereference
(`tag.Value` / `tag.Label` on the nil current-tag pointer), so validation
panics instead of accumulating an error. -/
theorem c3_validate_panics_on_degenerate_tag_files :
    Validate c3Validator [{ relPath := "aptrust-info.txt", content := "" }] =
      Except.error GoPanic.nilPointerDereference ∧
    Validate c3Validator [{ relPath := "aptrust-info.txt", content := "   \n\x09  \n" }] =
      Except.error GoPanic.nilPointerDereference ∧
    Validate c3Validator
        [{ relPath := "aptrust-info.txt", content := " continuation first" }] =
      Except.error GoPanic.nilPointerDereference :=
  ⟨rfl, rfl, rfl⟩

/-- The tag file of claim C4: a tag `A: x`, one blank line, then a line
beginning with whitespace. -/
def c4Lines : List (List Char) := splitLinesC ("A: x\n\n y").data

/-- Claim C4 counterexample: a continuation line that follows a blank line
DOES extend the value of the tag defined before the blank line — parsing
`A: x`, blank, ` y` leaves the current tag with value `x y`, not `x`.
Blank lines are skipped by the scanner loop without resetting the current
tag pointer, so they are not tag boundaries. -/
theorem c4_continuation_after_blank_extends_previous_tag :
    (parseTagsLoop "custom-tags.txt" c4Lines { obj := {} }).map
        (fun t => t.cur.map Tag.value) = Except.ok (some "x y") ∧
    ("x y" : String) ≠ "x" :=
  ⟨rfl, by decide⟩

/-- Claim C4 (amended): blank lines in a tag file are transparent — the
scanner skips them without resetting the current tag, so parsing a list of
lines gives exactly the same result as parsing the list with all blank
lines removed; in particular a continuation line after blank lines
continues the tag defined before them. -/
theorem c4_blank_lines_transparent (relFilePath : String)
    (lines : List (List Char)) (st : TagState) :
    parseTagsLoop relFilePath lines st =
      parseTagsLoop relFilePath
        (lines.filter (fun l => !(trimSpaceC l).isEmpty)) st := by
  induction lines generalizing st with
  | nil => rfl
  | cons line rest ih =>
    cases hb : (trimSpaceC line).isEmpty with
    | true =>
      simp only [parseTagsLoop, hb, if_true, List.filter_cons, Bool.not_true,
        Bool.false_eq_true, ite_false]
      exact ih st
    | false =>
      simp only [parseTagsLoop, hb, Bool.false_eq_true, if_false, List.filter_cons,
        Bool.not_false, ite_true]
      cases parseTagsStep relFilePath st line with
      | ok st2 => exact ih st2
      | error e => rfl

/-- Claim C4 witness: the blank-line transparency theorem at the concrete
tag file of the counterexample. -/
theorem c4_blank_lines_transparent_witness :
    parseTagsLoop "bag-info.txt" c4Lines { obj := {} } =
      parseTagsLoop "bag-info.txt"
        (c4Lines.filter (fun l => !(trimSpaceC l).isEmpty)) { obj := {} } :=
  c4_blank_lines_transparent "bag-info.txt" c4Lines { obj := {} }

/-- The validator of claim C5, with no fixity algorithm enabled. -/
def c5Validator : Validator := NewValidator "test.edu/bag" {} false binaryGuess

/-- Claim C5 counterexample: with no algorithm enabled the digest engine
does not read the reader at all — on a three-byte input it consumes zero
bytes, not three.  The `io.Copy` that drains the reader runs only inside
`if len(hashes) > 0`. -/
theorem c5_no_algorithm_reads_nothing :
    (calculateChecksums c5Validator (strBytes "abc") { identifier := "f" }).2 = 0 ∧
    (strBytes "abc").length = 3 :=
  ⟨rfl, rfl⟩

/-- Claim C5 (amended): `calculateChecksums` consumes its reader fully iff
at least one algorithm (md5 or sha256) is enabled; with the empty
algorithm set it consumes nothing. -/
theorem c5_reader_drained_iff_algorithm_enabled (v : Validator)
    (content : List Nat) (gf : GenericFile) :
    (calculateChecksums v content gf).2 =
      if v.calculateMd5 || v.calculateSha256 then content.length else 0 := by
  unfold calculateChecksums
  cases hm : v.calculateMd5 <;> cases hs : v.calculateSha256 <;> simp [hm, hs]

/-- Claim C5 witness: the drain characterization at a concrete validator
with no algorithm enabled and a three-byte reader. -/
theorem c5_reader_drained_iff_witness :
    (calculateChecksums c5Validator (strBytes "abc") { identifier := "g" }).2 =
      if c5Validator.calculateMd5 || c5Validator.calculateSha256 then
        (strBytes "abc").length
      else 0 :=
  c5_reader_drained_iff_algorithm_enabled c5Validator (strBytes "abc")
    { identifier := "g" }

/-- The boundary bag of claim C6: a zero-byte payload file listed in
`manifest-sha256.txt` with the canonical empty digest. -/
def c6Bag : List FileEntry :=
  [ { relPath := "data/empty.txt", content := "" },
    { relPath := "manifest-sha256.txt",
      content := "e3b0c44298fc1c149afbf4c8996fb92427ae41e4649b934ca495991b7852b855 data/empty.txt" } ]

/-- The validator for the C6 bag: sha256 enabled, extended attributes
preserved. -/
def c6Validator : Validator :=
  NewValidator "test.edu/bag" { fixityAlgorithms := [AlgSha256] } true binaryGuess

/-- Claim C6 (code bug): on the empty-payload-file boundary bag the
computed digests are indeed the canonical empty-input digests and
`setMimeType` yields `text/empty` for the zero-byte record, but validation
does NOT succeed: the `parseManifest` lookup bug reports the empty file as
"missing from bag", so the summary carries an error. -/
theorem c6_empty_payload_file_run :
    md5Hex (strBytes "") = "d41d8cd98f00b204e9800998ecf8427e" ∧
    sha256Hex (strBytes "") =
      "e3b0c44298fc1c149afbf4c8996fb92427ae41e4649b934ca495991b7852b855" ∧
    (Validate c6Validator c6Bag).map
        (fun r => (lookupAssoc r.files "test.edu/bag/data/empty.txt").map
          (fun gf => (gf.ingestSha256,
            (setMimeType c6Validator (strBytes "") gf).fileFormat))) =
      Except.ok (some
        ("e3b0c44298fc1c149afbf4c8996fb92427ae41e4649b934ca495991b7852b855",
         "text/empty")) ∧
    (Validate c6Validator c6Bag).map ValidationRun.summaryErrors =
      Except.ok
        ["File \x27data/empty.txt\x27 in manifest \x27manifest-sha256.txt\x27 is missing from bag"] :=
  ⟨rfl, rfl, rfl, rfl⟩

/-- Claim C7: one pass of the restore-init stage ends in exactly one of
three outcomes determined by the per-file request records: every request
available in primary creates the downstream restore WorkItem
(action=restore, stage=requested, status=pending) and finishes with
success; any request still to be made requeues with a one-minute delay;
otherwise (all accepted, some thawing) it requeues with a two-hour delay.
In the boundary scenario — every record initially unaccepted and a store
that accepts every request — the pass requeues two hours with every
request accepted and none available in primary. -/
theorem c7_one_pass_outcome_trichotomy (store : ColdStore) (item : WorkItem)
    (reqs : List GlacierRestoreRequest) :
    (((glacierOnePass store item reqs).1.all (fun r => r.isAvailableInS3)) = true →
      (glacierOnePass store item reqs).2 =
        StageOutcome.finishSuccess (restoreWorkItemFor item) ∧
      (restoreWorkItemFor item).action = "restore" ∧
      (restoreWorkItemFor item).stage = "requested" ∧
      (restoreWorkItemFor item).status = "pending") ∧
    (((glacierOnePass store item reqs).1.all (fun r => r.isAvailableInS3)) = false →
      ((glacierOnePass store item reqs).1.any (fun r => !r.requestAccepted)) = true →
      (glacierOnePass store item reqs).2 = StageOutcome.requeue 1) ∧
    (((glacierOnePass store item reqs).1.all (fun r => r.isAvailableInS3)) = false →
      ((glacierOnePass store item reqs).1.any (fun r => !r.requestAccepted)) = false →
      (glacierOnePass store item reqs).2 = StageOutcome.requeue 120) ∧
    ((∀ r ∈ reqs, r.requestAccepted = false ∧ r.isAvailableInS3 = false) →
      (∀ fid, store.restoreResp fid = RestoreResponse.accepted) →
      reqs ≠ [] →
      (glacierOnePass store item reqs).2 = StageOutcome.requeue 120 ∧
      ∀ r ∈ (glacierOnePass store item reqs).1,
        r.requestAccepted = true ∧ r.isAvailableInS3 = false) := by
  have h1 : (glacierOnePass store item reqs).1 = reqs.map (processRequest store) := rfl
  have h2 : (glacierOnePass store item reqs).2 =
      afterScanDecision item (reqs.map (processRequest store)) := rfl
  refine ⟨?_, ?_, ?_, ?_⟩
  · intro hall
    rw [h1] at hall
    refine ⟨?_, rfl, rfl, rfl⟩
    rw [h2]
    unfold afterScanDecision
    rw [hall]
    simp
  · intro hall hany
    rw [h1] at hall hany
    rw [h2]
    unfold afterScanDecision
    rw [hall, hany]
    simp
  · intro hall hany
    rw [h1] at hall hany
    rw [h2]
    unfold afterScanDecision
    rw [hall, hany]
    simp
  · intro hflags hacc hne
    have hproc : ∀ r' ∈ reqs.map (processRequest store),
        r'.requestAccepted = true ∧ r'.isAvailableInS3 = false := by
      intro r' hr'
      rcases List.mem_map.mp hr' with ⟨r, hr, rfl⟩
      rcases hflags r hr with ⟨hA, hS⟩
      unfold processRequest
      rw [hA, hacc]
      simp [hS]
    have hallF : (reqs.map (processRequest store)).all
        (fun r => r.isAvailableInS3) = false := by
      rcases reqs with _ | ⟨r0, rest⟩
      · exact absurd rfl hne
      · have h0 := hproc (processRequest store r0)
          (List.mem_map_of_mem (processRequest store) (List.mem_cons_self r0 rest))
        simp only [List.map_cons, List.all_cons, h0.2, Bool.false_and]
    have hanyF : (reqs.map (processRequest store)).any
        (fun r => !r.requestAccepted) = false := by
      rw [List.any_eq_false]
      intro r' hr'
      simp [(hproc r' hr').1]
    constructor
    · rw [h2]
      unfold afterScanDecision
      rw [hallF, hanyF]
      simp
    · rw [h1]
      exact hproc

/-- The twelve initial per-file request records of the C7 boundary
scenario: none accepted, none available in primary. -/
def c7Reqs : List GlacierRestoreRequest :=
  (List.range 12).map (fun i =>
    { genericFileIdentifier :=
        "test.edu/glacier_bag/file_" ++ toString (i + 1) ++ ".pdf" })

/-- A cold store that accepts every restore request. -/
def c7Store : ColdStore :=
  { restoreResp := fun _ => RestoreResponse.accepted,
    headResp := fun _ => HeadResponse.inProgress }

/-- The cold-tier restore work item driving the C7 scenario. -/
def c7Item : WorkItem :=
  { objectIdentifier := "test.edu/glacier_bag", action := "cold-restore",
    stage := "requested", status := "started" }

/-- Claim C7 witness: twelve all-unaccepted records against a store that
accepts everything — one pass requeues with the two-hour delay and leaves
every request accepted and not yet available in primary storage. -/
theorem c7_one_pass_witness :
    (glacierOnePass c7Store c7Item c7Reqs).2 = StageOutcome.requeue 120 ∧
    ∀ r ∈ (glacierOnePass c7Store c7Item c7Reqs).1,
      r.requestAccepted = true ∧ r.isAvailableInS3 = false :=
  (c7_one_pass_outcome_trichotomy c7Store c7Item c7Reqs).2.2.2
    (by decide) (fun _ => rfl) (by decide)

/-- Claim C8: the fail-fatal outcome sets status=failed, retry=false,
needs-admin-review=true, acknowledges (finishes) the message so it is not
retried, and writes the full concatenated error list of the WorkSummary
into the work-item note. -/
theorem c8_fail_fatal_outcome (st : WorkerState) :
    (finishWithError st).workItem.status = "failed" ∧
    (finishWithError st).workItem.retry = false ∧
    (finishWithError st).workItem.needsAdminReview = true ∧
    (finishWithError st).messageOp = MessageOp.finish ∧
    (finishWithError st).workItem.note = allErrorsAsString st.workSummary :=
  ⟨rfl, rfl, rfl, rfl, rfl⟩

/-- A worker state with two recorded errors, as in the fail-fatal test. -/
def c8State : WorkerState :=
  { workItem := { objectIdentifier := "test.edu/glacier_bag",
                  action := "cold-restore", stage := "requested",
                  status := "started" },
    workSummary := { errors := ["Error 1", "Error 2"] } }

/-- Claim C8 witness: the fail-fatal theorem at a concrete worker state
carrying two errors. -/
theorem c8_fail_fatal_witness :
    (finishWithError c8State).workItem.status = "failed" ∧
    (finishWithError c8State).workItem.retry = false ∧
    (finishWithError c8State).workItem.needsAdminReview = true ∧
    (finishWithError c8State).messageOp = MessageOp.finish ∧
    (finishWithError c8State).workItem.note = allErrorsAsString c8State.workSummary :=
  c8_fail_fatal_outcome c8State

/-- Claim C9 counterexample: on the tag line `A:  v ` (two spaces after
the colon, one trailing space) the stored value is `v`, not ` v ` — the
source trims ALL leading and trailing spaces with `strings.Trim`, not
exactly one leading space. -/
theorem c9_two_leading_spaces_counterexample :
    (parseTagsStep "bag-info.txt" { obj := {} } ("A:  v ").data).map
        (fun t => t.cur.map Tag.value) = Except.ok (some "v") ∧
    ("v" : String) ≠ " v " :=
  ⟨rfl, by decide⟩

/-- `strings.Replace(label ++ ":", ":", "", 1)` recovers a colon-free
label. -/
theorem removeFirstColon_concat_colon (label : List Char) (h : ':' ∉ label) :
    removeFirstColon (label ++ [':']) = label := by
  induction label with
  | nil => rfl
  | cons c cs ih =>
    have hc : ¬c = ':' := fun hc => h (hc ▸ List.mem_cons_self c cs)
    simp only [List.cons_append, removeFirstColon, hc, ite_false]
    exact congrArg (c :: ·) (ih (fun hm => h (List.mem_cons_of_mem c hm)))

/-- Claim C9 (amended): when a tag line is a non-blank label (non-empty,
colon-free, no whitespace) followed by a colon, one or more spaces, and a
value with no space at either end wrapped in optional further space
padding, the stored tag value is the value with ALL leading and trailing
spaces removed — not all-but-one leading space, and trailing spaces are
not preserved. -/
theorem c9_tag_value_trims_all_spaces (relFilePath : String) (st : TagState)
    (label core : List Char) (m n : Nat)
    (hne : label ≠ []) (hns : ∀ c ∈ label, goSpace c = false)
    (hnc : ':' ∉ label)
    (hcore : core = [] ∨ (core.head? ≠ some ' ' ∧ core.reverse.head? ≠ some ' ')) :
    (parseTagsStep relFilePath st
        (label ++ ':' :: (List.replicate (m + 1) ' ' ++ core ++
          List.replicate n ' '))).map (fun t => t.cur.map Tag.value) =
      Except.ok (some ⟨core⟩) := by
  set rest := List.replicate (m + 1) ' ' ++ core ++ List.replicate n ' ' with hrest
  have hline : label ++ ':' :: rest = (label ++ [':']) ++ rest := by simp
  have hall : ∀ c ∈ label ++ [':'], (!goSpace c) = true := by
    intro c hc
    rcases List.mem_append.mp hc with h | h
    · simp [hns c h]
    · simp only [List.mem_singleton] at h
      subst h
      rfl
  have hp0 : (label ++ ':' :: rest).takeWhile (fun c => !goSpace c) =
      label ++ [':'] := by
    rw [hline, takeWhile_append_all hall, hrest, List.replicate_succ]
    simp [List.takeWhile_cons, goSpace]
  have hsplit : tagLineSplit (label ++ ':' :: rest) = some (label ++ [':'], rest) := by
    unfold tagLineSplit
    simp only [hp0]
    rw [if_pos ⟨by simp, List.getLast?_concat label⟩, hline]
    rw [List.drop_left]
  unfold parseTagsStep
  rw [hsplit]
  simp only [removeFirstColon_concat_colon label hnc]
  rw [if_pos hne]
  simp only [Except.map, Option.map]
  rw [hrest, trimCharC_space_padding core (m + 1) n hcore]

/-- Claim C9 witness: the line `Title:  Some Title ` stores the tag value
`Some Title`. -/
theorem c9_trim_witness :
    (parseTagsStep "aptrust-info.txt" { obj := {} }
        ("Title".data ++ ':' :: (List.replicate 2 ' ' ++ "Some Title".data ++
          List.replicate 1 ' '))).map (fun t => t.cur.map Tag.value) =
      Except.ok (some ⟨"Some Title".data⟩) :=
  c9_tag_value_trims_all_spaces "aptrust-info.txt" { obj := {} } "Title".data
    "Some Title".data 1 1 (by decide) (by decide) (by decide)
    (Or.inr ⟨by decide, by decide⟩)

/-- The effect environment of claim C10: the local file opens fine, the
session creation fails, the uploader itself would succeed. -/
def c10Env : S3Env :=
  { openFile := fun _ => Except.ok (),
    getS3Session := fun _ =>
      Except.error "MissingRegion: could not find region configuration",
    upload := fun _ _ => Except.ok { location := "https://s3.example.com/key1" } }

/-- The upload client of claim C10. -/
def c10Upload : S3Upload :=
  NewS3Upload "us-east-1" "aptrust.preservation" "key1" "/mnt/apt/bag.tar"
    "application/x-tar"

/-- Claim C10 (code bug): when `GetS3Session` fails, `Send` returns with
BOTH `ErrorMessage` empty and `Response` nil — the `err != nil` check in
`GetSession` runs before `GetS3Session` is called, so the error is
discarded and `Send` silently returns on the nil session. -/
theorem c10_send_silent_on_session_failure :
    (S3Upload.Send c10Env c10Upload).errorMessage = "" ∧
    (S3Upload.Send c10Env c10Upload).response = none ∧
    (S3Upload.GetSession c10Env c10Upload).errorMessage = "" :=
  ⟨rfl, rfl, rfl⟩

end Exchange
